import Mathlib

/-!
Verification of the flag-validation and scope-resolution layer of a
cloud-SDK command-line front-end.

The development shallowly embeds the relevant Python functions:

* `lib/googlecloudsdk/command_lib/compute/instances/flags.py`:
  `InstanceZoneScopeLister`, `ValidateDiskAccessModeFlags`,
  `ValidateDiskBootFlags`, `ValidateServiceAccountAndScopeArgs`,
  `ValidateNicFlags`, `ValidateLocalSsdFlags`, `AddLocalSsdArgsWithSize`;
* `lib/surface/firebase/test/android/models/list.py`: `List.Run`;
* `lib/surface/dataproc/jobs/delete.py`: `Delete.Run`.

Python exceptions become an explicit `Except` error value; a Python dict
flag value (for example one `--disk` entry) becomes a structure whose
fields are `Option String` (a missing key is `none`); Python truthiness
of strings and integers is made explicit (`truthyStr`, `truthySize`).
-/

namespace GoogleCloudSdk

/-- The classified errors raised by the embedded code paths.  Each
constructor stands for one exception class of the source
(`ToolException`, `RequiredArgumentException`, `InvalidArgumentException`,
`ConflictingArgumentsException`, and the parse-time
`MalformedInputError`); payloads carry the formatted message or, for the
conflicting-arguments error, the flag plus the list of conflicting flag
names that the source joins with commas into its message. -/
inductive CmdErr where
  | toolException (msg : String)
  | requiredArgumentException (missingFlag : String) (msg : String)
  | invalidArgumentException (flag : String) (msg : String)
  | conflictingArgumentsException (flag : String) (conflicts : List String)
  | malformedInputError (input : String)
deriving DecidableEq

/-- Python truthiness of an optional string value: `None` and the empty
string are falsy, every other string is truthy. -/
def truthyStr : Option String → Bool
  | none => false
  | some s => !s.isEmpty

/-- Python truthiness of an optional integer value: `None` and `0` are
falsy. -/
def truthySize : Option Nat → Bool
  | none => false
  | some n => n != 0

/-- How Python renders an optional string inside a formatted message:
`None` prints as the word None. -/
def pyStr : Option String → String
  | none => "None"
  | some s => s

namespace InstancesFlags

/-- One instance returned by the filtered `AggregatedList` query in
`InstanceZoneScopeLister`: only its `zone` URL is consumed. -/
structure MatchingInstance where
  zone : String
deriving DecidableEq

/-- What `InstanceZoneScopeLister` produces: the status lines it prints
through `log.status.Print` and the zone list it returns (the source wraps
the list as the single `ScopeEnum.ZONE` entry of a dict). -/
structure ScopeListerResult where
  logs : List String
  zones : List String
deriving DecidableEq

/-- `InstanceZoneScopeLister` (flags.py lines 118-152).  The backing
`MakeRequests` call is represented by its two outputs: the collected
`errors` list and the `matching_instances` list.  `zoneNameOf` stands for
the external resource registry step
`REGISTRY.Parse(i.zone, collection=compute.zones).Name()` that turns a
zone URL into a zone name, and `allZones` for the result of
`zones_service.List` (the full zone list of the project) used by both
fallback branches. -/
def InstanceZoneScopeLister (zoneNameOf : String → String) (allZones : List String)
    (underspecified_names : List String) (errors : List String)
    (matching_instances : List MatchingInstance) : ScopeListerResult :=
  if !errors.isEmpty then
    { logs := ["Error fetching possible zones for instance: [" ++
          String.intercalate ", " underspecified_names ++ "]."],
      zones := allZones }
  else if matching_instances.isEmpty then
    { logs := ["Unable to find an instance with name [" ++
          (underspecified_names.headD "") ++ "]."],
      zones := allZones }
  else
    { logs := [],
      zones := matching_instances.map (fun i => zoneNameOf i.zone) }

/-- Claim C1: when the backing aggregated-list query collects errors, the
scope lister does not re-raise them: it returns the full list of all
zones of the project, exactly the value the not-found path (no errors, no
matching instances) returns. -/
theorem instanceZoneScopeLister_queryFailed_fallback
    (zoneNameOf : String → String) (allZones : List String)
    (underspecified_names : List String) (errors : List String)
    (matching_instances : List MatchingInstance)
    (herr : errors ≠ []) :
    (InstanceZoneScopeLister zoneNameOf allZones underspecified_names errors
        matching_instances).zones = allZones
    ∧ (InstanceZoneScopeLister zoneNameOf allZones underspecified_names errors
        matching_instances).zones
      = (InstanceZoneScopeLister zoneNameOf allZones underspecified_names []
          []).zones := by
  cases errors with
  | nil => exact absurd rfl herr
  | cons e es => simp [InstanceZoneScopeLister]

/-- Witness for C1: a concrete underspecified instance whose query failed
with one collected error falls back to the two-zone project list. -/
theorem instanceZoneScopeLister_queryFailed_fallback_witness :
    (InstanceZoneScopeLister id ["zone-a", "zone-b"] ["vm-1"] ["http 403"]
        [⟨"zones/zone-a"⟩]).zones = ["zone-a", "zone-b"]
    ∧ (InstanceZoneScopeLister id ["zone-a", "zone-b"] ["vm-1"] ["http 403"]
        [⟨"zones/zone-a"⟩]).zones
      = (InstanceZoneScopeLister id ["zone-a", "zone-b"] ["vm-1"] [] []).zones :=
  instanceZoneScopeLister_queryFailed_fallback id ["zone-a", "zone-b"] ["vm-1"]
    ["http 403"] [⟨"zones/zone-a"⟩] (by decide)

/-- Claim C2: when the query succeeds, one candidate instance yields
exactly its single zone, and two candidates in two zones yield exactly
those two zones as the candidate set (the lister picks neither). -/
theorem instanceZoneScopeLister_candidates
    (zoneNameOf : String → String) (allZones : List String)
    (underspecified_names : List String) (z1 z2 : String) :
    (InstanceZoneScopeLister zoneNameOf allZones underspecified_names []
        [⟨z1⟩]).zones = [zoneNameOf z1]
    ∧ (InstanceZoneScopeLister zoneNameOf allZones underspecified_names []
        [⟨z1⟩, ⟨z2⟩]).zones = [zoneNameOf z1, zoneNameOf z2] := by
  simp [InstanceZoneScopeLister]

/-- One `--disk` flag entry, a dict with the keys
`name`, `mode`, `boot`, `device-name`, `auto-delete`; a key absent from
the dict is `none` (Python `disk.get(...)` returns `None`). -/
structure DiskEntry where
  name : Option String
  mode : Option String
  boot : Option String
  device_name : Option String
  auto_delete : Option String
deriving DecidableEq

/-- `ValidateDiskAccessModeFlags` (flags.py lines 706-716): walking the
`--disk` entries, raise a `ToolException` on the first entry whose `mode`
is `rw` while the command targets more than one instance name. -/
def ValidateDiskAccessModeFlags : List DiskEntry → List String → Except CmdErr Unit
  | [], _ => .ok ()
  | disk :: rest, instance_names =>
    if instance_names.length > 1 && disk.mode == some "rw" then
      .error (.toolException ("Cannot attach disk [" ++ pyStr disk.name ++
        "] in read-write mode to more than one instance."))
    else
      ValidateDiskAccessModeFlags rest instance_names

lemma validateDiskAccessModeFlags_ok_iff (disks : List DiskEntry)
    (instance_names : List String) :
    ValidateDiskAccessModeFlags disks instance_names = .ok () ↔
      ∀ d ∈ disks, ¬(1 < instance_names.length ∧ d.mode = some "rw") := by
  induction disks with
  | nil => simp [ValidateDiskAccessModeFlags]
  | cons disk rest ih =>
    simp only [ValidateDiskAccessModeFlags]
    by_cases hc : instance_names.length > 1 && disk.mode == some "rw"
    · rw [if_pos hc]
      simp only [Bool.and_eq_true, decide_eq_true_eq, beq_iff_eq] at hc
      constructor
      · intro h
        cases h
      · intro h
        exact ((h disk (List.mem_cons_self disk rest)) ⟨hc.1, hc.2⟩).elim
    · rw [if_neg hc, ih]
      have hdisk : ¬(1 < instance_names.length ∧ disk.mode = some "rw") := by
        rintro ⟨h1, h2⟩
        apply hc
        simp only [Bool.and_eq_true, decide_eq_true_eq, beq_iff_eq]
        exact ⟨h1, h2⟩
      constructor
      · intro h d hd
        rcases List.mem_cons.mp hd with rfl | hd
        · exact hdisk
        · exact h d hd
      · intro h d hd
        exact h d (List.mem_cons_of_mem _ hd)

/-- Claim C3: disk access-mode validation errors exactly when some
`--disk` entry has mode `rw` and more than one instance name is
targeted; the same disk list with a single target instance passes. -/
theorem validateDiskAccessModeFlags_rw_multi_iff (disks : List DiskEntry)
    (instance_names : List String) :
    (ValidateDiskAccessModeFlags disks instance_names ≠ .ok () ↔
      1 < instance_names.length ∧ ∃ d ∈ disks, d.mode = some "rw")
    ∧ (instance_names.length = 1 →
        ValidateDiskAccessModeFlags disks instance_names = .ok ()) := by
  constructor
  · rw [Ne, validateDiskAccessModeFlags_ok_iff]
    push_neg
    constructor
    · rintro ⟨d, hd, hlen, hrw⟩
      exact ⟨hlen, d, hd, hrw⟩
    · rintro ⟨hlen, d, hd, hrw⟩
      exact ⟨d, hd, hlen, hrw⟩
  · intro hlen
    rw [validateDiskAccessModeFlags_ok_iff]
    intro d _
    simp [hlen]

/-- Arguments consumed by `ValidateDiskBootFlags` (flags.py lines
719-784): the `--disk` entries (`none` when the flag is absent, as in
`args.disk or []`), `--image`, and the boot-disk flags.
`boot_disk_auto_delete` is a boolean with default `True`, so
`--no-boot-disk-auto-delete` makes it `false`. -/
structure CreateArgs where
  disk : Option (List DiskEntry)
  image : Option String
  boot_disk_device_name : Option String
  boot_disk_type : Option String
  boot_disk_size : Option Nat
  boot_disk_auto_delete : Bool
  boot_disk_kms_key : Option String
  boot_disk_kms_keyring : Option String
  boot_disk_kms_location : Option String
  boot_disk_kms_project : Option String
deriving DecidableEq

/-- The error raised when a second `boot=yes` entry is seen. -/
def twoBootDisksErr : CmdErr :=
  .toolException ("Each instance can have exactly one boot disk. At least two " ++
    "boot disks were specified through [--disk].")

/-- The error raised when a `boot=yes` entry coexists with `--image`. -/
def bootDiskImageErr : CmdErr :=
  .toolException ("Each instance can have exactly one boot disk. One boot disk " ++
    "was specified through [--disk] and another through [--image].")

/-- The first loop of `ValidateDiskBootFlags`: scan the `--disk` entries
tracking `boot_disk_specified`, rejecting an invalid `boot` value and a
second `boot=yes`. -/
def findBootDisk : List DiskEntry → Bool → Except CmdErr Bool
  | [], boot_disk_specified => .ok boot_disk_specified
  | disk :: rest, boot_disk_specified =>
    if truthyStr disk.boot && !(disk.boot == some "yes" || disk.boot == some "no") then
      .error (.toolException ("Value for [boot] in [--disk] must be [yes] or [no], not [" ++
        pyStr disk.boot ++ "]."))
    else if disk.boot == some "yes" then
      if boot_disk_specified then
        .error twoBootDisksErr
      else
        findBootDisk rest true
    else
      findBootDisk rest boot_disk_specified

/-- `ValidateDiskBootFlags` (flags.py lines 719-784).  After the scan,
`--image` together with a boot disk is rejected, and when an existing
disk was marked as boot disk the new-boot-disk-only flags are rejected in
the source order (device name, type, size, auto-delete, then the KMS
flags when `enable_kms`). -/
def ValidateDiskBootFlags (args : CreateArgs) (enable_kms : Bool) : Except CmdErr Unit :=
  match findBootDisk (args.disk.getD []) false with
  | .error e => .error e
  | .ok boot_disk_specified =>
    if truthyStr args.image && boot_disk_specified then
      .error bootDiskImageErr
    else if boot_disk_specified then
      if truthyStr args.boot_disk_device_name then
        .error (.toolException
          "[--boot-disk-device-name] can only be used when creating a new boot disk.")
      else if truthyStr args.boot_disk_type then
        .error (.toolException
          "[--boot-disk-type] can only be used when creating a new boot disk.")
      else if truthySize args.boot_disk_size then
        .error (.toolException
          "[--boot-disk-size] can only be used when creating a new boot disk.")
      else if !args.boot_disk_auto_delete then
        .error (.toolException
          "[--no-boot-disk-auto-delete] can only be used when creating a new boot disk.")
      else if enable_kms then
        if truthyStr args.boot_disk_kms_key then
          .error (.toolException
            "[--boot-disk-kms-key] can only be used when creating a new boot disk.")
        else if truthyStr args.boot_disk_kms_keyring then
          .error (.toolException
            "[--boot-disk-kms-keyring] can only be used when creating a new boot disk.")
        else if truthyStr args.boot_disk_kms_location then
          .error (.toolException
            "[--boot-disk-kms-location] can only be used when creating a new boot disk.")
        else if truthyStr args.boot_disk_kms_project then
          .error (.toolException
            "[--boot-disk-kms-project] can only be used when creating a new boot disk.")
        else
          .ok ()
      else
        .ok ()
    else
      .ok ()

/-- The number of `--disk` entries carrying `boot=yes`. -/
def countBootDisks (disks : List DiskEntry) : Nat :=
  (disks.filter (fun d => d.boot == some "yes")).length

/-- Every `boot` value in the list is absent, `yes`, or `no` (the shapes
the source accepts without its invalid-value error). -/
def ValidBoots (disks : List DiskEntry) : Prop :=
  ∀ d ∈ disks, d.boot = none ∨ d.boot = some "yes" ∨ d.boot = some "no"

instance (disks : List DiskEntry) : Decidable (ValidBoots disks) := by
  unfold ValidBoots
  infer_instance

lemma countBootDisks_cons (d : DiskEntry) (rest : List DiskEntry) :
    countBootDisks (d :: rest) =
      (if d.boot == some "yes" then 1 else 0) + countBootDisks rest := by
  simp only [countBootDisks, List.filter_cons]
  split
  · simp [Nat.add_comm]
  · simp

instance exceptDecidableEq {ε α : Type} [DecidableEq ε] [DecidableEq α] :
    DecidableEq (Except ε α) := fun a b =>
  match a, b with
  | .error e, .error f =>
    if h : e = f then .isTrue (by rw [h])
    else .isFalse (by intro hc; cases hc; exact h rfl)
  | .error _, .ok _ => .isFalse (by intro hc; cases hc)
  | .ok _, .error _ => .isFalse (by intro hc; cases hc)
  | .ok x, .ok y =>
    if h : x = y then .isTrue (by rw [h])
    else .isFalse (by intro hc; cases hc; exact h rfl)

lemma bootCondNone :
    (truthyStr none &&
      !((none : Option String) == some "yes" || (none : Option String) == some "no")) = false := by
  decide

lemma bootCondYes :
    (truthyStr (some "yes") &&
      !((some "yes" : Option String) == some "yes" ||
        (some "yes" : Option String) == some "no")) = false := by
  decide

lemma bootCondNo :
    (truthyStr (some "no") &&
      !((some "no" : Option String) == some "yes" ||
        (some "no" : Option String) == some "no")) = false := by
  decide

lemma beqNoneYes : ((none : Option String) == some "yes") = false := by decide

lemma beqYesYes : ((some "yes" : Option String) == some "yes") = true := by decide

lemma beqNoYes : ((some "no" : Option String) == some "yes") = false := by decide

lemma findBootDisk_true (disks : List DiskEntry) (h : ValidBoots disks) :
    findBootDisk disks true =
      if 1 ≤ countBootDisks disks then .error twoBootDisksErr else .ok true := by
  induction disks with
  | nil =>
    have h0 : countBootDisks [] = 0 := rfl
    simp [findBootDisk, h0]
  | cons disk rest ih =>
    have hrest : ValidBoots rest := fun d hd => h d (List.mem_cons_of_mem _ hd)
    rcases h disk (List.mem_cons_self disk rest) with hb | hb | hb
    · have hstep : findBootDisk (disk :: rest) true = findBootDisk rest true := by
        simp [findBootDisk, hb, truthyStr, bootCondNone, beqNoneYes]
      have hcnt : countBootDisks (disk :: rest) = countBootDisks rest := by
        rw [countBootDisks_cons, hb, if_neg (by rw [beqNoneYes]; decide), Nat.zero_add]
      rw [hstep, hcnt, ih hrest]
    · have hstep : findBootDisk (disk :: rest) true = .error twoBootDisksErr := by
        simp [findBootDisk, hb, bootCondYes, beqYesYes]
      have hcnt : countBootDisks (disk :: rest) = 1 + countBootDisks rest := by
        rw [countBootDisks_cons, hb, if_pos (by rw [beqYesYes])]
      rw [hstep, hcnt, if_pos (show 1 ≤ 1 + countBootDisks rest by omega)]
    · have hstep : findBootDisk (disk :: rest) true = findBootDisk rest true := by
        simp [findBootDisk, hb, bootCondNo, beqNoYes]
      have hcnt : countBootDisks (disk :: rest) = countBootDisks rest := by
        rw [countBootDisks_cons, hb, if_neg (by rw [beqNoYes]; decide), Nat.zero_add]
      rw [hstep, hcnt, ih hrest]

lemma findBootDisk_false (disks : List DiskEntry) (h : ValidBoots disks) :
    findBootDisk disks false =
      if 2 ≤ countBootDisks disks then .error twoBootDisksErr
      else .ok (decide (countBootDisks disks = 1)) := by
  induction disks with
  | nil =>
    have h0 : countBootDisks [] = 0 := rfl
    simp [findBootDisk, h0]
  | cons disk rest ih =>
    have hrest : ValidBoots rest := fun d hd => h d (List.mem_cons_of_mem _ hd)
    rcases h disk (List.mem_cons_self disk rest) with hb | hb | hb
    · have hstep : findBootDisk (disk :: rest) false = findBootDisk rest false := by
        simp [findBootDisk, hb, truthyStr, bootCondNone, beqNoneYes]
      have hcnt : countBootDisks (disk :: rest) = countBootDisks rest := by
        rw [countBootDisks_cons, hb, if_neg (by rw [beqNoneYes]; decide), Nat.zero_add]
      rw [hstep, hcnt, ih hrest]
    · have hstep : findBootDisk (disk :: rest) false = findBootDisk rest true := by
        simp [findBootDisk, hb, bootCondYes, beqYesYes]
      have hcnt : countBootDisks (disk :: rest) = 1 + countBootDisks rest := by
        rw [countBootDisks_cons, hb, if_pos (by rw [beqYesYes])]
      rw [hstep, findBootDisk_true rest hrest, hcnt]
      by_cases h1 : 1 ≤ countBootDisks rest
      · rw [if_pos h1, if_pos (show 2 ≤ 1 + countBootDisks rest by omega)]
      · rw [if_neg h1, if_neg (show ¬2 ≤ 1 + countBootDisks rest by omega)]
        have c0 : countBootDisks rest = 0 := by omega
        rw [c0]
        decide
    · have hstep : findBootDisk (disk :: rest) false = findBootDisk rest false := by
        simp [findBootDisk, hb, bootCondNo, beqNoYes]
      have hcnt : countBootDisks (disk :: rest) = countBootDisks rest := by
        rw [countBootDisks_cons, hb, if_neg (by rw [beqNoYes]; decide), Nat.zero_add]
      rw [hstep, hcnt, ih hrest]

/-- Claim C4: at least two `boot=yes` entries fail with the
two-boot-disks error; exactly one `boot=yes` entry together with
`--image` fails with the disk-plus-image error; with at most one
`boot=yes` entry and no `--image`, neither of those two errors is
raised. -/
theorem validateDiskBootFlags_bootCount (args : CreateArgs)
    (h : ValidBoots (args.disk.getD [])) :
    (2 ≤ countBootDisks (args.disk.getD []) →
      ValidateDiskBootFlags args false = .error twoBootDisksErr)
    ∧ (countBootDisks (args.disk.getD []) = 1 → truthyStr args.image = true →
      ValidateDiskBootFlags args false = .error bootDiskImageErr)
    ∧ (countBootDisks (args.disk.getD []) ≤ 1 → truthyStr args.image = false →
      ValidateDiskBootFlags args false ≠ .error twoBootDisksErr
      ∧ ValidateDiskBootFlags args false ≠ .error bootDiskImageErr) := by
  have hfe := findBootDisk_false (args.disk.getD []) h
  refine ⟨?_, ?_, ?_⟩
  · intro h2
    unfold ValidateDiskBootFlags
    rw [hfe, if_pos h2]
  · intro hc himg
    have hok : findBootDisk (args.disk.getD []) false = .ok true := by
      rw [hfe, if_neg (show ¬2 ≤ countBootDisks (args.disk.getD []) by omega), hc]
      rfl
    unfold ValidateDiskBootFlags
    rw [hok]
    simp [himg]
  · intro hle himg
    have hok : findBootDisk (args.disk.getD []) false =
        .ok (decide (countBootDisks (args.disk.getD []) = 1)) := by
      rw [hfe, if_neg (show ¬2 ≤ countBootDisks (args.disk.getD []) by omega)]
    unfold ValidateDiskBootFlags
    rw [hok]
    refine ⟨?_, ?_⟩ <;>
    · intro hEq
      simp only [himg, Bool.false_and, Bool.false_eq_true, if_false] at hEq
      repeat' split at hEq
      all_goals exact absurd hEq (by decide)

/-- A concrete `--disk` entry attaching an existing disk as boot disk. -/
def bootDiskA : DiskEntry :=
  { name := some "disk-0", mode := none, boot := some "yes",
    device_name := none, auto_delete := none }

/-- A second concrete `boot=yes` entry. -/
def bootDiskB : DiskEntry :=
  { name := some "disk-1", mode := none, boot := some "yes",
    device_name := none, auto_delete := none }

/-- Arguments carrying two `boot=yes` entries and nothing else. -/
def argsTwoBootDisks : CreateArgs :=
  { disk := some [bootDiskA, bootDiskB], image := none,
    boot_disk_device_name := none, boot_disk_type := none,
    boot_disk_size := none, boot_disk_auto_delete := true,
    boot_disk_kms_key := none, boot_disk_kms_keyring := none,
    boot_disk_kms_location := none, boot_disk_kms_project := none }

/-- Witness for C4: two `boot=yes` entries raise the two-boot-disks
error. -/
theorem validateDiskBootFlags_bootCount_witness :
    ValidateDiskBootFlags argsTwoBootDisks false = .error twoBootDisksErr :=
  (validateDiskBootFlags_bootCount argsTwoBootDisks (by decide)).1 (by decide)

/-- Claim C5: when some `--disk` entry attaches an existing disk as boot
disk (`boot=yes`), setting `--boot-disk-device-name`, `--boot-disk-type`
or `--boot-disk-size`, or disabling `--boot-disk-auto-delete`, makes the
validation fail. -/
theorem validateDiskBootFlags_attachedBootDisk (args : CreateArgs) (enable_kms : Bool)
    (h : ValidBoots (args.disk.getD []))
    (hboot : ∃ d ∈ args.disk.getD [], d.boot = some "yes")
    (hflag : truthyStr args.boot_disk_device_name = true
      ∨ truthyStr args.boot_disk_type = true
      ∨ truthySize args.boot_disk_size = true
      ∨ args.boot_disk_auto_delete = false) :
    ∃ e, ValidateDiskBootFlags args enable_kms = .error e := by
  have hfe := findBootDisk_false (args.disk.getD []) h
  have hpos : 1 ≤ countBootDisks (args.disk.getD []) := by
    rcases hboot with ⟨d, hd, hb⟩
    have hmem : d ∈ (args.disk.getD []).filter (fun x => x.boot == some "yes") :=
      List.mem_filter.mpr ⟨hd, by simp [hb]⟩
    exact List.length_pos_of_mem hmem
  by_cases h2 : 2 ≤ countBootDisks (args.disk.getD [])
  · refine ⟨twoBootDisksErr, ?_⟩
    unfold ValidateDiskBootFlags
    rw [hfe, if_pos h2]
  · have hc : countBootDisks (args.disk.getD []) = 1 := by omega
    have hok : findBootDisk (args.disk.getD []) false = .ok true := by
      rw [hfe, if_neg h2, hc]
      rfl
    unfold ValidateDiskBootFlags
    rw [hok]
    cases himg : truthyStr args.image with
    | true => exact ⟨bootDiskImageErr, by simp [himg]⟩
    | false =>
      cases hdev : truthyStr args.boot_disk_device_name with
      | true =>
        exact ⟨.toolException
          "[--boot-disk-device-name] can only be used when creating a new boot disk.",
          by simp [himg, hdev]⟩
      | false =>
        cases htyp : truthyStr args.boot_disk_type with
        | true =>
          exact ⟨.toolException
            "[--boot-disk-type] can only be used when creating a new boot disk.",
            by simp [himg, hdev, htyp]⟩
        | false =>
          cases hsiz : truthySize args.boot_disk_size with
          | true =>
            exact ⟨.toolException
              "[--boot-disk-size] can only be used when creating a new boot disk.",
              by simp [himg, hdev, htyp, hsiz]⟩
          | false =>
            have hauto : args.boot_disk_auto_delete = false := by
              rcases hflag with h4 | h4 | h4 | h4
              · rw [hdev] at h4; cases h4
              · rw [htyp] at h4; cases h4
              · rw [hsiz] at h4; cases h4
              · exact h4
            exact ⟨.toolException
              "[--no-boot-disk-auto-delete] can only be used when creating a new boot disk.",
              by simp [himg, hdev, htyp, hsiz, hauto]⟩

/-- Arguments with one attached boot disk and a boot-disk device name. -/
def argsAttachedBootDisk : CreateArgs :=
  { disk := some [bootDiskA], image := none,
    boot_disk_device_name := some "persistent-disk-0", boot_disk_type := none,
    boot_disk_size := none, boot_disk_auto_delete := true,
    boot_disk_kms_key := none, boot_disk_kms_keyring := none,
    boot_disk_kms_location := none, boot_disk_kms_project := none }

/-- Witness for C5: attaching an existing boot disk while also passing
`--boot-disk-device-name` fails. -/
theorem validateDiskBootFlags_attachedBootDisk_witness :
    ∃ e, ValidateDiskBootFlags argsAttachedBootDisk false = .error e :=
  validateDiskBootFlags_attachedBootDisk argsAttachedBootDisk false (by decide)
    (by decide) (Or.inl (by decide))

/-- Arguments consumed by `ValidateServiceAccountAndScopeArgs` (flags.py
lines 1311-1320): the two boolean switches and the `--scopes` list
(`none` when the flag is absent, as in `args.scopes or []`). -/
structure ServiceAccountArgs where
  no_service_account : Bool
  no_scopes : Bool
  scopes : Option (List String)
deriving DecidableEq

/-- The error raised when `--no-service-account` is set without
`--no-scopes`. -/
def noScopesRequiredErr : CmdErr :=
  .requiredArgumentException "--no-scopes" "required with argument --no-service-account"

/-- The loop of `ValidateServiceAccountAndScopeArgs` rejecting empty
scope strings. -/
def checkScopesNonEmpty : List String → Except CmdErr Unit
  | [] => .ok ()
  | scope :: rest =>
    if scope.isEmpty then
      .error (.invalidArgumentException "--scopes" "Scope cannot be an empty string.")
    else
      checkScopesNonEmpty rest

/-- `ValidateServiceAccountAndScopeArgs` (flags.py lines 1311-1320). -/
def ValidateServiceAccountAndScopeArgs (args : ServiceAccountArgs) : Except CmdErr Unit :=
  if args.no_service_account && !args.no_scopes then
    .error noScopesRequiredErr
  else
    checkScopesNonEmpty (args.scopes.getD [])

lemma checkScopesNonEmpty_ne_required (scopes : List String) :
    checkScopesNonEmpty scopes ≠ .error noScopesRequiredErr := by
  induction scopes with
  | nil => simp [checkScopesNonEmpty]
  | cons scope rest ih =>
    simp only [checkScopesNonEmpty]
    split
    · intro hc
      cases hc
    · exact ih

/-- Claim C6: the service-account validation raises the
required-argument error naming `--no-scopes` exactly when
`--no-service-account` is set and `--no-scopes` is not. -/
theorem validateServiceAccountAndScopeArgs_required_iff (args : ServiceAccountArgs) :
    ValidateServiceAccountAndScopeArgs args = .error noScopesRequiredErr ↔
      args.no_service_account = true ∧ args.no_scopes = false := by
  unfold ValidateServiceAccountAndScopeArgs
  by_cases hc : args.no_service_account && !args.no_scopes
  · rw [if_pos hc]
    simp only [Bool.and_eq_true, Bool.not_eq_true'] at hc
    simp [hc]
  · rw [if_neg hc]
    simp only [Bool.and_eq_true, Bool.not_eq_true'] at hc
    constructor
    · intro hEq
      exact absurd hEq (checkScopesNonEmpty_ne_required _)
    · intro hset
      exact absurd hset hc

/-- One `--network-interface` entry: whether the dict carries the keys
`address` and `no-address` (only key presence is consulted by
`ValidateNicFlags`). -/
structure NetworkInterface where
  hasAddress : Bool
  hasNoAddress : Bool
deriving DecidableEq

/-- Arguments consumed by `ValidateNicFlags` (flags.py lines 1596-1627):
the composite `--network-interface` list (`none` when absent) and the
four standalone flags of its conflict set. -/
structure NicArgs where
  network_interface : Option (List NetworkInterface)
  address : Option String
  network : Option String
  private_network_ip : Option String
  subnet : Option String
deriving DecidableEq

/-- The per-interface loop of `ValidateNicFlags`: an entry specifying
both `address` and `no-address` is rejected. -/
def checkAddressKeys : List NetworkInterface → Except CmdErr Unit
  | [] => .ok ()
  | ni :: rest =>
    if ni.hasAddress && ni.hasNoAddress then
      .error (.invalidArgumentException "--network-interface"
        "specifies both address and no-address for one interface")
    else
      checkAddressKeys rest

/-- The truthiness lookup `getattr(args, arg, None)` for the four
conflict-set attribute names. -/
def nicAttrTruthy (args : NicArgs) : String → Bool
  | "address" => truthyStr args.address
  | "network" => truthyStr args.network
  | "private_network_ip" => truthyStr args.private_network_ip
  | "subnet" => truthyStr args.subnet
  | _ => false

/-- `conflicting_args_present` of `ValidateNicFlags`: the conflict-set
attribute names whose flag value is truthy, in the source order. -/
def nicConflictingArgsPresent (args : NicArgs) : List String :=
  ["address", "network", "private_network_ip", "subnet"].filter
    (fun a => nicAttrTruthy args a)

/-- The flag spelling of an attribute name: dash prefix plus underscores
replaced by dashes (the one-character str.replace of the source as a
character map). -/
def flagName (a : String) : String :=
  "--" ++ String.mk (a.data.map (fun c => if c = '_' then '-' else c))

/-- `ValidateNicFlags` (flags.py lines 1596-1627): nothing to check when
`--network-interface` is absent; otherwise reject an entry with both
`address` and `no-address`, then raise a conflicting-arguments error
naming every standalone conflict-set flag that is present. -/
def ValidateNicFlags (args : NicArgs) : Except CmdErr Unit :=
  match args.network_interface with
  | none => .ok ()
  | some network_interface =>
    match checkAddressKeys network_interface with
    | .error e => .error e
    | .ok _ =>
      match nicConflictingArgsPresent args with
      | [] => .ok ()
      | present =>
        .error (.conflictingArgumentsException "--network-interface"
          (present.map flagName))

/-- Recognizer for the conflicting-arguments error class. -/
def isConflictingArgumentsError : Except CmdErr Unit → Bool
  | .error (.conflictingArgumentsException _ _) => true
  | _ => false

/-- A parsed argument set whose one `--network-interface` entry carries
both `address` and `no-address` while the standalone `--address` flag is
also set. -/
def nicArgsBothAddressKeys : NicArgs :=
  { network_interface := some [{ hasAddress := true, hasNoAddress := true }],
    address := some "192.0.2.1", network := none,
    private_network_ip := none, subnet := none }

/-- Counterexample to C7 as stated: with `--network-interface` present
and the standalone `--address` flag set, validation raises the
invalid-argument error for the entry carrying both `address` and
`no-address`, not a conflicting-arguments error. -/
theorem validateNicFlags_counterexample :
    truthyStr nicArgsBothAddressKeys.address = true
    ∧ nicArgsBothAddressKeys.network_interface ≠ none
    ∧ isConflictingArgumentsError (ValidateNicFlags nicArgsBothAddressKeys) = false
    ∧ ValidateNicFlags nicArgsBothAddressKeys
      = .error (.invalidArgumentException "--network-interface"
          "specifies both address and no-address for one interface") := by
  refine ⟨by decide, by decide, ?_, ?_⟩ <;> rfl

lemma checkAddressKeys_ok (nis : List NetworkInterface)
    (h : ∀ ni ∈ nis, ¬(ni.hasAddress = true ∧ ni.hasNoAddress = true)) :
    checkAddressKeys nis = .ok () := by
  induction nis with
  | nil => rfl
  | cons ni rest ih =>
    have hni := h ni (List.mem_cons_self ni rest)
    have hc : (ni.hasAddress && ni.hasNoAddress) = false := by
      cases ha : ni.hasAddress <;> cases hb : ni.hasNoAddress <;> simp_all
    simp only [checkAddressKeys, hc, Bool.false_eq_true, if_false]
    exact ih (fun x hx => h x (List.mem_cons_of_mem _ hx))

/-- Claim C7 (amended): provided no single `--network-interface` entry
carries both `address` and `no-address` (that case raises the
invalid-argument error first), validation with `--network-interface`
present raises a conflicting-arguments error exactly when one of the
standalone flags `--address`, `--network`, `--private-network-ip`,
`--subnet` is set, and the error names every one of the standalone flags
present. -/
theorem validateNicFlags_conflicts_iff (args : NicArgs)
    (nis : List NetworkInterface)
    (hni : args.network_interface = some nis)
    (haddr : ∀ ni ∈ nis, ¬(ni.hasAddress = true ∧ ni.hasNoAddress = true)) :
    (nicConflictingArgsPresent args ≠ [] →
      ValidateNicFlags args
        = .error (.conflictingArgumentsException "--network-interface"
            ((nicConflictingArgsPresent args).map flagName)))
    ∧ (nicConflictingArgsPresent args = [] → ValidateNicFlags args = .ok ())
    ∧ (nicConflictingArgsPresent args ≠ [] ↔
        (truthyStr args.address || truthyStr args.network
          || truthyStr args.private_network_ip || truthyStr args.subnet) = true) := by
  have hchk := checkAddressKeys_ok nis haddr
  have hred : ValidateNicFlags args =
      match checkAddressKeys nis with
      | .error e => .error e
      | .ok _ =>
        match nicConflictingArgsPresent args with
        | [] => .ok ()
        | present =>
          .error (.conflictingArgumentsException "--network-interface"
            (present.map flagName)) := by
    unfold ValidateNicFlags
    rw [hni]
  refine ⟨?_, ?_, ?_⟩
  · intro hne
    rw [hred, hchk]
    cases hp : nicConflictingArgsPresent args with
    | nil => exact absurd hp hne
    | cons a rest => rfl
  · intro hp
    rw [hred, hchk, hp]
  · unfold nicConflictingArgsPresent nicAttrTruthy
    cases h1 : truthyStr args.address <;> cases h2 : truthyStr args.network <;>
      cases h3 : truthyStr args.private_network_ip <;> cases h4 : truthyStr args.subnet <;>
      simp [List.filter, h1, h2, h3, h4]

/-- A parsed argument set with `--network-interface` plus the standalone
`--address` and `--subnet` flags. -/
def nicArgsTwoConflicts : NicArgs :=
  { network_interface := some [{ hasAddress := false, hasNoAddress := false }],
    address := some "192.0.2.5", network := none,
    private_network_ip := none, subnet := some "subnet-one" }

/-- Witness for C7 (amended): `--address` and `--subnet` next to
`--network-interface` are both named in the conflicting-arguments
error. -/
theorem validateNicFlags_conflicts_iff_witness :
    ValidateNicFlags nicArgsTwoConflicts
      = .error (.conflictingArgumentsException "--network-interface"
          ((nicConflictingArgsPresent nicArgsTwoConflicts).map flagName)) :=
  (validateNicFlags_conflicts_iff nicArgsTwoConflicts
    [{ hasAddress := false, hasNoAddress := false }] rfl (by decide)).1 (by decide)

/-- `LOCAL_SSD_INTERFACES` (flags.py line 65). -/
def LOCAL_SSD_INTERFACES : List String := ["NVME", "SCSI"]

/-- Modelled from the spec: `constants.BYTES_IN_ONE_GB` (the constants
module is not under src/); byte sizes use binary units, one gigabyte
being 2 to the 30th bytes. -/
def BYTES_IN_ONE_GB : Nat := 2 ^ 30

/-- One `--local-ssd` flag entry with the keys `device-name`,
`interface` and `size` (the `size` value is the byte count its
`BinarySize` sub-parser produced). -/
structure LocalSsdEntry where
  device_name : Option String
  interface : Option String
  size : Option Nat
deriving DecidableEq

/-- `ValidateLocalSsdFlags` (flags.py lines 1579-1593): per entry, an
unexpected interface is rejected, then a size that is not a multiple of
`375 * BYTES_IN_ONE_GB` is rejected. -/
def ValidateLocalSsdFlags : List LocalSsdEntry → Except CmdErr Unit
  | [] => .ok ()
  | local_ssd :: rest =>
    if truthyStr local_ssd.interface &&
        !(LOCAL_SSD_INTERFACES.contains (local_ssd.interface.getD "")) then
      .error (.invalidArgumentException "--local-ssd:interface"
        ("Unexpected local SSD interface: [" ++ pyStr local_ssd.interface ++
          "]. Legal values are [" ++ String.intercalate ", " LOCAL_SSD_INTERFACES ++ "]."))
    else
      match local_ssd.size with
      | some size =>
        if size % (375 * BYTES_IN_ONE_GB) != 0 then
          .error (.invalidArgumentException "--local-ssd:size"
            ("Unexpected local SSD size: [" ++ toString size ++
              "]. Legal values are positive multiples of 375GB."))
        else
          ValidateLocalSsdFlags rest
      | none => ValidateLocalSsdFlags rest

/-- The byte count of a unit suffix.  Modelled from the spec: byte-size
parsing accepts a numeric magnitude plus unit suffix KB, MB, GB or TB
(the `arg_parsers` module is not under src/). -/
def binaryUnitBytes : String → Option Nat
  | "KB" => some (2 ^ 10)
  | "MB" => some (2 ^ 20)
  | "GB" => some (2 ^ 30)
  | "TB" => some (2 ^ 40)
  | _ => none

/-- The leading decimal digits of a character list, with the remaining
characters. -/
def splitDigits : List Char → List Char × List Char
  | [] => ([], [])
  | c :: cs =>
    if c.isDigit then
      ((splitDigits cs).1.cons c, (splitDigits cs).2)
    else
      ([], c :: cs)

/-- The numeric value of a run of decimal digits. -/
def digitsToNat (ds : List Char) : Nat :=
  ds.foldl (fun n c => 10 * n + (c.toNat - 48)) 0

/-- Modelled from the spec: parsing a byte-size string (numeric
magnitude plus unit suffix) into a byte count; `none` when there are no
leading digits or the suffix is not a known unit. -/
def parseBinarySize (s : String) : Option Nat :=
  match splitDigits s.data with
  | ([], _) => none
  | (ds, rest) =>
    match binaryUnitBytes (String.mk rest) with
    | none => none
    | some unitBytes => some (digitsToNat ds * unitBytes)

/-- Modelled from the spec: `BinarySize(lower_bound=...)` fails with a
`MalformedInputError` when the value does not parse or is below the
declared lower bound. -/
def binarySizeWithLowerBound (lower : Nat) (s : String) : Except CmdErr Nat :=
  match parseBinarySize s with
  | none => .error (.malformedInputError s)
  | some n => if n < lower then .error (.malformedInputError s) else .ok n

/-- End-to-end processing of one `--local-ssd` `size` value:
`AddLocalSsdArgsWithSize` (flags.py lines 278-308) declares
`BinarySize(lower_bound=375GB)` as the sub-parser of the `size` key, and
`ValidateLocalSsdFlags` then applies the multiple-of-375GB check to the
parsed byte count. -/
def processLocalSsdSize (s : String) : Except CmdErr Nat :=
  match binarySizeWithLowerBound (375 * BYTES_IN_ONE_GB) s with
  | .error e => .error e
  | .ok size =>
    match ValidateLocalSsdFlags
        [{ device_name := none, interface := none, size := some size }] with
    | .error e => .error e
    | .ok _ => .ok size

/-- Recognizer for the parse-time malformed-input error class. -/
def isMalformedInputError : Except CmdErr Nat → Bool
  | .error (.malformedInputError _) => true
  | _ => false

/-- Counterexample to C8 as stated: the size 400GB is not a multiple of
375GB, yet it passes the parse-time lower-bound check (no
`MalformedInputError` at parse time); the failure is the validation-time
invalid-argument error. -/
theorem localSsdSize_counterexample :
    binarySizeWithLowerBound (375 * BYTES_IN_ONE_GB) "400GB"
      = .ok (400 * BYTES_IN_ONE_GB)
    ∧ isMalformedInputError (processLocalSsdSize "400GB") = false
    ∧ processLocalSsdSize "400GB"
      = .error (.invalidArgumentException "--local-ssd:size"
          ("Unexpected local SSD size: [" ++ toString (400 * BYTES_IN_ONE_GB) ++
            "]. Legal values are positive multiples of 375GB.")) := by
  refine ⟨?_, ?_, ?_⟩ <;> rfl

/-- Claim C8 (amended): a size below the 375GB lower bound fails at
parse time with a `MalformedInputError` (so `370GB` fails), while a size
that parses but is not a multiple of `375 * BYTES_IN_ONE_GB` fails at
validation time with an invalid-argument error; `375GB` and `750GB`
succeed. -/
theorem localSsdSize_processing :
    processLocalSsdSize "370GB" = .error (.malformedInputError "370GB")
    ∧ processLocalSsdSize "375GB" = .ok (375 * BYTES_IN_ONE_GB)
    ∧ processLocalSsdSize "750GB" = .ok (750 * BYTES_IN_ONE_GB)
    ∧ (∀ s n, binarySizeWithLowerBound (375 * BYTES_IN_ONE_GB) s = .ok n →
        n % (375 * BYTES_IN_ONE_GB) ≠ 0 →
        processLocalSsdSize s
          = .error (.invalidArgumentException "--local-ssd:size"
              ("Unexpected local SSD size: [" ++ toString n ++
                "]. Legal values are positive multiples of 375GB.")))
    ∧ (∀ s n, binarySizeWithLowerBound (375 * BYTES_IN_ONE_GB) s = .ok n →
        n % (375 * BYTES_IN_ONE_GB) = 0 → processLocalSsdSize s = .ok n) := by
  refine ⟨rfl, rfl, rfl, ?_, ?_⟩
  · intro s n hok hmod
    have hred : processLocalSsdSize s =
        match ValidateLocalSsdFlags
            [{ device_name := none, interface := none, size := some n }] with
        | .error e => .error e
        | .ok _ => .ok n := by
      unfold processLocalSsdSize
      rw [hok]
    have hval : ValidateLocalSsdFlags
        [{ device_name := none, interface := none, size := some n }] =
        if n % (375 * BYTES_IN_ONE_GB) != 0 then
          .error (.invalidArgumentException "--local-ssd:size"
            ("Unexpected local SSD size: [" ++ toString n ++
              "]. Legal values are positive multiples of 375GB."))
        else
          .ok () := rfl
    have hcond : (n % (375 * BYTES_IN_ONE_GB) != 0) = true := bne_iff_ne.mpr hmod
    rw [hred, hval, if_pos hcond]
  · intro s n hok hmod
    have hred : processLocalSsdSize s =
        match ValidateLocalSsdFlags
            [{ device_name := none, interface := none, size := some n }] with
        | .error e => .error e
        | .ok _ => .ok n := by
      unfold processLocalSsdSize
      rw [hok]
    have hval : ValidateLocalSsdFlags
        [{ device_name := none, interface := none, size := some n }] =
        if n % (375 * BYTES_IN_ONE_GB) != 0 then
          .error (.invalidArgumentException "--local-ssd:size"
            ("Unexpected local SSD size: [" ++ toString n ++
              "]. Legal values are positive multiples of 375GB."))
        else
          .ok () := rfl
    have hcond : (n % (375 * BYTES_IN_ONE_GB) != 0) = false := by
      rw [hmod]
      rfl
    rw [hred, hval,
      if_neg (show ¬(n % (375 * BYTES_IN_ONE_GB) != 0) = true by rw [hcond]; simp)]

end InstancesFlags

namespace AndroidModels

/-- One Android device model of the service catalog: its id and the list
of OS version ids it currently supports. -/
structure AndroidModel where
  id : String
  supportedVersionIds : List String
deriving DecidableEq

/-- The Android device catalog returned by the backing service. -/
structure AndroidCatalog where
  models : List AndroidModel
deriving DecidableEq

/-- `List.Run` of the android models list command (list.py lines 44-56):
keep exactly the catalog models whose `supportedVersionIds` list is
truthy (non-empty), in catalog order. -/
def Run (catalog : AndroidCatalog) : List AndroidModel :=
  catalog.models.filter (fun model => !model.supportedVersionIds.isEmpty)

/-- Claim C9: the models list command returns exactly the catalog models
with a non-empty `supportedVersionIds` list, in the catalog order; a
model with an empty list never appears. -/
theorem run_keeps_supported_models (catalog : AndroidCatalog) :
    (∀ m, m ∈ Run catalog ↔ m ∈ catalog.models ∧ m.supportedVersionIds ≠ [])
    ∧ List.Sublist (Run catalog) catalog.models
    ∧ (∀ m, m.supportedVersionIds = [] → m ∉ Run catalog) := by
  have hmem : ∀ m, m ∈ Run catalog ↔ m ∈ catalog.models ∧ m.supportedVersionIds ≠ [] := by
    intro m
    simp [Run, List.mem_filter]
  refine ⟨hmem, List.filter_sublist catalog.models, ?_⟩
  intro m hempty hmmem
  exact absurd hempty ((hmem m).mp hmmem).2

end AndroidModels

namespace DataprocJobsDelete

/-- One outbound dataproc service call made by `Delete.Run`. -/
inductive DataprocCall where
  | deleteJob (jobId : String)
  | getJob (jobId : String)
deriving DecidableEq

/-- The observable outcome of a `Delete.Run` invocation: the service
calls issued, in order, and the final result. -/
structure RunOutcome where
  calls : List DataprocCall
  result : Except CmdErr Unit

/-- `Delete.Run` (delete.py lines 44-61): the job reference and the
delete request are built locally, then `PromptContinue` asks the
operator (`confirm` is the answer).  A declined prompt raises
`ToolException` before any service call; a confirmed prompt issues the
Delete call, after which `WaitForResourceDeletion` polls Get (`polls`
poll rounds) and the deletion is logged. -/
def Run (confirm : Bool) (jobId : String) (polls : Nat) : RunOutcome :=
  if !confirm then
    { calls := [],
      result := .error (.toolException "Deletion aborted by user.") }
  else
    { calls := DataprocCall.deleteJob jobId ::
        List.replicate polls (DataprocCall.getJob jobId),
      result := .ok () }

/-- Claim C10: a declined confirmation aborts with the ToolException
before any service call (in particular no Delete request is issued), and
a confirmed prompt issues the Delete request as the first service
call. -/
theorem run_decline_aborts_before_delete (jobId : String) (polls : Nat) :
    ((Run false jobId polls).calls = []
      ∧ (Run false jobId polls).result
        = .error (.toolException "Deletion aborted by user.")
      ∧ DataprocCall.deleteJob jobId ∉ (Run false jobId polls).calls)
    ∧ (Run true jobId polls).calls.head? = some (DataprocCall.deleteJob jobId) := by
  refine ⟨⟨rfl, rfl, ?_⟩, rfl⟩
  simp [Run]

end DataprocJobsDelete

end GoogleCloudSdk
